import Mathlib

/-!
Verification of the KVLedger commit/recovery coordinator
(`core/ledger/kvledger/kv_ledger.go`).

The coordinator is embedded shallowly: each Go method becomes a Lean
function over explicit state.  The collaborators (block store, state
transaction manager, history manager) are external to the coordinator;
they are modelled at the interface boundary the coordinator uses, with
error-injection tables so that every failure path of the coordinator is
reachable.  Every coordinator function additionally emits a trace of the
durable-store calls it makes, so that ordering and frame properties can
be stated about the calls themselves.
-/

namespace Fabric

/-- Transactions are abstracted to an identifier plus the persisted
per-transaction validity annotation carried inside a stored block. -/
structure Tx where
  id : Nat
  valid : Bool
deriving DecidableEq, Repr

/-- Blocks carry their number (height) and their transactions,
mirroring the fields of `common.Block` the coordinator depends on. -/
structure Block where
  num : Nat
  txs : List Tx
deriving DecidableEq, Repr

/-- Summary returned by the block store's `GetBlockchainInfo`. -/
structure BlockchainInfo where
  height : Nat
deriving DecidableEq, Repr

/-- Pending state update set staged by `ValidateAndPrepare`: the number
of the block it came from and the effects (transaction ids) to apply. -/
structure UpdateSet where
  blockNum : Nat
  writes : List Nat
deriving DecidableEq, Repr

/-- Events: the durable-store calls the coordinator makes.  `fetch`,
`prepare` and `commitState` are the recovery-replay calls
(`GetBlockByNumber`, `txtmgmt.ValidateAndPrepare`, `txtmgmt.Commit`);
`appendBlock`, `commitState` and `commitHistory` are the three durable
steps of `Commit`. -/
inductive Ev where
  | fetch : Nat → Ev
  | prepare : Nat → Bool → Ev
  | commitState : Nat → Ev
  | appendBlock : Nat → Ev
  | commitHistory : Nat → Ev
deriving DecidableEq, Repr

/-- Result kind of a coordinator call: normal success, a returned Go
error, or a Go panic (`fatal`). -/
inductive Res where
  | ok : Res
  | fail : String → Res
  | fatal : String → Res
deriving DecidableEq, Repr

/-- Block store model (external collaborator, `blkstorage.BlockStore`):
an append-only list of blocks (height = length), plus error-injection
tables for each fallible call.  `GetBlockchainInfo` returns the info
together with an error value, exactly as the Go interface does. -/
structure BlockStore where
  blocks : List Block
  infoErr : Option String
  fetchErr : Nat → Option String
  appendErr : Nat → Option String

def BlockStore.getBlockchainInfo (s : BlockStore) : BlockchainInfo × Option String :=
  (⟨s.blocks.length⟩, s.infoErr)

def BlockStore.retrieveBlockByNumber (s : BlockStore) (n : Nat) : Except String Block :=
  match s.fetchErr n with
  | some e => .error e
  | none =>
    match s.blocks.find? (fun b => b.num == n) with
    | some b => .ok b
    | none => .error "block not found"

def BlockStore.addBlock (s : BlockStore) (b : Block) : Except String BlockStore :=
  match s.appendErr b.num with
  | some e => .error e
  | none => .ok { s with blocks := s.blocks ++ [b] }

/-- Modelled from the spec: the State Transaction Manager
(`txmgmt.TxMgr`), whose implementations (`lockbasedtxmgmt`,
`couchdbtxmgmt`) are not among the staged files.  Per the interface
contract it holds the committed keyed state (abstracted to the list of
applied effects), the persisted savepoint, and at most one staged update
set; `policy` is its business-validation decision per transaction id,
and the `Err` tables inject failures of the fallible calls. -/
structure TxMgr where
  committed : List Nat
  savepoint : Nat
  staged : Option UpdateSet
  policy : Nat → Bool
  savepointErr : Option String
  prepareErr : Nat → Option String
  commitErr : Nat → Option String

def TxMgr.getBlockNumFromSavepoint (m : TxMgr) : Except String Nat :=
  match m.savepointErr with
  | some e => .error e
  | none => .ok m.savepoint

/-- Modelled from the spec: `validateAndPrepare(block, filterInvalid) ->
(updatedBlock, invalidTxs, error)` stages an update set from the block
without touching committed state or the savepoint.  With `filterInvalid`
true (live path) it recomputes validity from `policy` and — per the
spec's words, "rejected transactions are tagged but the block is still
the one ultimately stored (with annotations)" — returns the original
block with its per-transaction annotations updated (invalid transactions
tagged, not removed) plus the list of rejected transactions, staging
only the valid transactions' effects.  With `filterInvalid` false
(recovery replay) the persisted annotations are honored and the block is
returned unchanged. -/
def TxMgr.validateAndPrepare (m : TxMgr) (b : Block) ( filterInvalid : Bool) :
    Except String (Block × List Tx × TxMgr) :=
  match m.prepareErr b.num with
  | some e => .error e
  | none =>
    if filterInvalid then
      let annotated := b.txs.map (fun t => { t with valid := m.policy t.id })
      let validTxs := annotated.filter (fun t => t.valid)
      let invalidTxs := annotated.filter (fun t => !t.valid)
      .ok (⟨b.num, annotated⟩, invalidTxs,
        { m with staged := some ⟨b.num, validTxs.map (fun t => t.id)⟩ })
    else
      let validTxs := b.txs.filter (fun t => t.valid)
      .ok (b, [],
        { m with staged := some ⟨b.num, validTxs.map (fun t => t.id)⟩ })

/-- Modelled from the spec: `commit` durably applies the staged update
set and advances the savepoint to the staged block's height. -/
def TxMgr.commit (m : TxMgr) : Except String TxMgr :=
  match m.staged with
  | none => .ok m
  | some u =>
    match m.commitErr u.blockNum with
    | some e => .error e
    | none =>
      .ok { m with committed := m.committed ++ u.writes,
                   savepoint := u.blockNum, staged := none }

/-- Modelled from the spec: `rollback` discards the staged update set
and touches nothing durable. -/
def TxMgr.rollback (m : TxMgr) : TxMgr :=
  { m with staged := none }

/-- History manager model (external collaborator, `history.HistMgr`). -/
structure HistMgr where
  entries : List Block
  histErr : Nat → Option String

def HistMgr.commit (h : HistMgr) (b : Block) : Except String HistMgr :=
  match h.histErr b.num with
  | some e => .error e
  | none => .ok { h with entries := h.entries ++ [b] }

/-- Prune policies are opaque to the coordinator. -/
structure PrunePolicy where
  tag : Nat
deriving DecidableEq, Repr

/-- The `KVLedger` struct: the three collaborator handles, the
history-enabled configuration flag (read from `ledgerconfig`, resolved
per run), and the single `pendingBlockToCommit` slot. -/
structure KVLedger where
  blockStore : BlockStore
  txtmgmt : TxMgr
  historymgmt : HistMgr
  historyEnabled : Bool
  pendingBlockToCommit : Option Block

/-- GetBlockByNumber: pass-through to the block store. -/
def KVLedger.GetBlockByNumber (l : KVLedger) (blockNumber : Nat) : Except String Block :=
  l.blockStore.retrieveBlockByNumber blockNumber

/-- Message of the error recoverStateDB returns when the savepoint is
ahead of the block-store height (verbatim from the source). -/
def aheadMsg : String :=
  "BlockStorage height is behind savepoint by %d blocks. Recovery the BlockStore first"

/-- Replay loop body of `recoverStateDB`: for `count` heights starting
at `n`, fetch the block, set it as pending, validate-and-prepare it with
filterInvalid false, and commit to the state manager, returning the
first error; after the loop the pending block is cleared.  Returns
(error, final ledger, trace of store calls). -/
def recoverRange (l : KVLedger) (n count : Nat) : Option String × KVLedger × List Ev :=
  match count with
  | 0 => (none, { l with pendingBlockToCommit := none }, [])
  | count' + 1 =>
    match l.GetBlockByNumber n with
    | .error e => (some e, { l with pendingBlockToCommit := none }, [Ev.fetch n])
    | .ok b =>
      let l1 := { l with pendingBlockToCommit := some b }
      match l1.txtmgmt.validateAndPrepare b false with
      | .error e => (some e, l1, [Ev.fetch n, Ev.prepare n false])
      | .ok (_, _, m1) =>
        let l2 := { l1 with txtmgmt := m1 }
        match l2.txtmgmt.commit with
        | .error e => (some e, l2, [Ev.fetch n, Ev.prepare n false, Ev.commitState n])
        | .ok m2 =>
          let l3 := { l2 with txtmgmt := m2 }
          let r := recoverRange l3 (n + 1) count'
          (r.1, r.2.1, [Ev.fetch n, Ev.prepare n false, Ev.commitState n] ++ r.2.2)

/-- recoverStateDB: read blockchain info (its error is bound to `_` in
the source and discarded), no-op when the height is 0; read the
savepoint; no-op when equal to the height, error when ahead of it, and
otherwise replay heights savepoint+1 through height. -/
def recoverStateDB (l : KVLedger) : Option String × KVLedger × List Ev :=
  let info := (l.blockStore.getBlockchainInfo).1
  if info.height = 0 then (none, l, [])
  else
    match l.txtmgmt.getBlockNumFromSavepoint with
    | .error e => (some e, l, [])
    | .ok savepointValue =>
      if savepointValue = info.height then (none, l, [])
      else if info.height < savepointValue then (some aheadMsg, l, [])
      else recoverRange l (savepointValue + 1) (info.height - savepointValue)

/-- NewKVLedger, from the point where the collaborator handles have been
constructed: build the ledger with no pending block, run recoverStateDB,
and panic on a recovery error. -/
def NewKVLedger (blockStore : BlockStore) (txtmgmt : TxMgr) (historymgmt : HistMgr)
    (historyEnabled : Bool) : Res × KVLedger × List Ev :=
  let l : KVLedger := ⟨blockStore, txtmgmt, historymgmt, historyEnabled, none⟩
  match recoverStateDB l with
  | (some e, l1, tr) => (.fatal ("Error during state DB recovery:" ++ e), l1, tr)
  | (none, l1, tr) => (.ok, l1, tr)

/-- RemoveInvalidTransactionsAndPrepare: delegate to the state manager's
ValidateAndPrepare with filterInvalid true and, on success, record the
returned valid block as the pending block. -/
def KVLedger.RemoveInvalidTransactionsAndPrepare (l : KVLedger) (block : Block) :
    Except String (Block × List Tx) × KVLedger :=
  match l.txtmgmt.validateAndPrepare block true with
  | .error e => (.error e, l)
  | .ok (validBlock, invalidTxs, m1) =>
    (.ok (validBlock, invalidTxs),
      { l with txtmgmt := m1, pendingBlockToCommit := some validBlock })

/-- Message of the panic raised by Commit with no pending block
(verbatim from the source). -/
def commitIdleMsg : String :=
  "Nothing to commit. RemoveInvalidTransactionsAndPrepare() method should have been called and should not have thrown error"

/-- Commit: panic when no block is pending; otherwise append the pending
block to the block store (returning a normal error on failure), commit
to the state manager (panicking on failure), commit to the history
manager when history is enabled (panicking on failure), and clear the
pending block. -/
def KVLedger.Commit (l : KVLedger) : Res × KVLedger × List Ev :=
  match l.pendingBlockToCommit with
  | none => (.fatal commitIdleMsg, l, [])
  | some b =>
    match l.blockStore.addBlock b with
    | .error e => (.fail e, l, [Ev.appendBlock b.num])
    | .ok bs1 =>
      let l1 := { l with blockStore := bs1 }
      match l1.txtmgmt.commit with
      | .error e =>
        (.fatal ("Error during commit to txmgr:" ++ e), l1,
          [Ev.appendBlock b.num, Ev.commitState b.num])
      | .ok m1 =>
        let l2 := { l1 with txtmgmt := m1 }
        if l2.historyEnabled then
          match l2.historymgmt.commit b with
          | .error e =>
            (.fatal ("Error during commit to txthistory:" ++ e), l2,
              [Ev.appendBlock b.num, Ev.commitState b.num, Ev.commitHistory b.num])
          | .ok h1 =>
            (.ok, { l2 with historymgmt := h1, pendingBlockToCommit := none },
              [Ev.appendBlock b.num, Ev.commitState b.num, Ev.commitHistory b.num])
        else
          (.ok, { l2 with pendingBlockToCommit := none },
            [Ev.appendBlock b.num, Ev.commitState b.num])

/-- Rollback: discard the staged update set in the state manager and
clear the pending block. -/
def KVLedger.Rollback (l : KVLedger) : KVLedger :=
  { l with txtmgmt := l.txtmgmt.rollback, pendingBlockToCommit := none }

/-- Prune: unimplemented; always returns the not-implemented error and
changes nothing. -/
def KVLedger.Prune (l : KVLedger) (policy : PrunePolicy) : Except String Unit × KVLedger :=
  (.error "Not yet implemented", l)

/-- Specification-side description of the recovery replay, following the
spec's words: for the given count of heights starting at n, in increasing
order, fetch the block by number from the block store, run the
validate-and-prepare step in already-final mode (filterInvalid false),
then commit the resulting update set to the state transaction manager;
at the first failing step stop with that error, processing no later
height.  Every height is judged against the initial ledger; the theorem
for C1 states that the program's threaded execution produces exactly
this error and this call sequence. -/
def specReplay (l : KVLedger) (n count : Nat) : Option String × List Ev :=
  match count with
  | 0 => (none, [])
  | count' + 1 =>
    match l.blockStore.retrieveBlockByNumber n with
    | .error e => (some e, [Ev.fetch n])
    | .ok b =>
      match l.txtmgmt.validateAndPrepare b false with
      | .error e => (some e, [Ev.fetch n, Ev.prepare n false])
      | .ok (_, _, m1) =>
        match m1.commit with
        | .error e => (some e, [Ev.fetch n, Ev.prepare n false, Ev.commitState n])
        | .ok _ =>
          let r := specReplay l (n + 1) count'
          (r.1, [Ev.fetch n, Ev.prepare n false, Ev.commitState n] ++ r.2)

/-- Ledger state after one fully successful replay iteration of block b:
b is pending, its valid transactions' effects are applied and the
savepoint sits at its number. -/
def replayStep (l : KVLedger) (b : Block) : KVLedger :=
  { l with pendingBlockToCommit := some b, txtmgmt := { l.txtmgmt with committed := l.txtmgmt.committed ++ (b.txs.filter (fun t => t.valid)).map (fun t => t.id), savepoint := b.num, staged := none } }

/-! ## Concrete fixtures for witnesses and counterexamples -/

/-- Block store over the given blocks, with no injected errors. -/
def mkStore (bl : List Block) : BlockStore :=
  ⟨bl, none, fun _ => none, fun _ => none⟩

/-- State manager at the given savepoint, accepting every transaction,
with no injected errors and nothing staged. -/
def mkMgr (sp : Nat) : TxMgr :=
  ⟨[], sp, none, fun _ => true, none, fun _ => none, fun _ => none⟩

/-- History manager with no entries and no injected errors. -/
def mkHist : HistMgr :=
  ⟨[], fun _ => none⟩

def bOne : Block := ⟨1, [⟨1, true⟩]⟩

def bTwo : Block := ⟨2, [⟨2, true⟩]⟩

def bThree : Block := ⟨1, [⟨1, true⟩, ⟨2, true⟩, ⟨3, true⟩]⟩

/-- bThree as annotated by a state manager that rejects transaction 2:
all three transactions present, transaction 2 tagged invalid. -/
def abThree : Block := ⟨1, [⟨1, true⟩, ⟨2, false⟩, ⟨3, true⟩]⟩

def lIdle : KVLedger := ⟨mkStore [], mkMgr 0, mkHist, false, none⟩

def lAppendFail : KVLedger :=
  ⟨{ mkStore [] with appendErr := fun _ => some "disk full" }, mkMgr 0, mkHist, false,
    some bOne⟩

def lAhead : KVLedger := ⟨mkStore [bOne], mkMgr 5, mkHist, false, none⟩

def lEmptyAhead : KVLedger := ⟨mkStore [], mkMgr 1, mkHist, false, none⟩

def lInfoErr : KVLedger :=
  ⟨{ mkStore [] with infoErr := some "blockchain info read failed" }, mkMgr 0, mkHist,
    false, none⟩

def lPrepared : KVLedger :=
  ⟨mkStore [], { mkMgr 0 with staged := some ⟨1, [1]⟩ }, mkHist, true, some bOne⟩

def lReject2 : KVLedger :=
  ⟨mkStore [], { mkMgr 0 with policy := fun i => i != 2 }, mkHist, false, none⟩

def lC4run : KVLedger := (lReject2.RemoveInvalidTransactionsAndPrepare bThree).2

def lRecover : KVLedger := ⟨mkStore [bOne, bTwo], mkMgr 0, mkHist, false, none⟩

def lSync : KVLedger := ⟨mkStore [bOne], mkMgr 1, mkHist, false, none⟩

def lSpErr : KVLedger :=
  ⟨mkStore [bOne], { mkMgr 0 with savepointErr := some "savepoint read failed" }, mkHist,
    false, none⟩

def lFetchErr : KVLedger :=
  ⟨{ mkStore [bOne] with fetchErr := fun _ => some "fetch failed" }, mkMgr 0, mkHist,
    false, none⟩

def lPrepFail : KVLedger :=
  ⟨mkStore [bOne], { mkMgr 0 with prepareErr := fun _ => some "prepare failed" }, mkHist,
    false, none⟩

def lCommitFail : KVLedger :=
  ⟨mkStore [bOne], { mkMgr 0 with commitErr := fun _ => some "state commit failed" },
    mkHist, false, none⟩

def lStateFail : KVLedger :=
  ⟨mkStore [], { mkMgr 0 with staged := some ⟨1, [1]⟩, commitErr := fun _ => some "state commit failed" }, mkHist, false, some bOne⟩

def lHistFail : KVLedger :=
  ⟨mkStore [], mkMgr 0, { mkHist with histErr := fun _ => some "history commit failed" },
    true, some bOne⟩

/-! ## Helper lemmas -/

/-- Behavior of ValidateAndPrepare in already-final mode when the state
manager fails. -/
lemma validateAndPrepare_false_err (m : TxMgr) (b : Block) (e : String)
    (h : m.prepareErr b.num = some e) :
    m.validateAndPrepare b false = Except.error e := by
  unfold TxMgr.validateAndPrepare
  rw [h]

/-- Behavior of ValidateAndPrepare in already-final mode on success: the
block is returned unchanged and the update set staged from its
transactions marked valid. -/
lemma validateAndPrepare_false_ok (m : TxMgr) (b : Block)
    (h : m.prepareErr b.num = none) :
    m.validateAndPrepare b false = Except.ok (b, [],
      { m with staged := some ⟨b.num, (b.txs.filter (fun t => t.valid)).map (fun t => t.id)⟩ }) := by
  unfold TxMgr.validateAndPrepare
  rw [h]
  rfl

/-- State-manager commit after an update set has been staged. -/
lemma commit_of_staged (m : TxMgr) (u : UpdateSet) :
    ({ m with staged := some u } : TxMgr).commit =
      match m.commitErr u.blockNum with
      | some e => Except.error e
      | none => Except.ok { m with committed := m.committed ++ u.writes,
                                   savepoint := u.blockNum, staged := none } := by
  unfold TxMgr.commit
  cases he : m.commitErr u.blockNum <;> simp [he]

/-- Replay loop, iteration whose block fetch fails. -/
lemma recoverRange_fetch_err (l : KVLedger) (n c : Nat) (e : String)
    (hf : l.blockStore.retrieveBlockByNumber n = Except.error e) :
    recoverRange l n (c + 1) =
      (some e, { l with pendingBlockToCommit := none }, [Ev.fetch n]) := by
  unfold recoverRange KVLedger.GetBlockByNumber
  rw [hf]

/-- Replay loop, iteration whose validate-and-prepare fails. -/
lemma recoverRange_prepare_err (l : KVLedger) (n c : Nat) (b : Block) (e : String)
    (hf : l.blockStore.retrieveBlockByNumber n = Except.ok b)
    (hp : l.txtmgmt.prepareErr b.num = some e) :
    recoverRange l n (c + 1) =
      (some e, { l with pendingBlockToCommit := some b },
        [Ev.fetch n, Ev.prepare n false]) := by
  unfold recoverRange KVLedger.GetBlockByNumber
  rw [hf]
  simp [validateAndPrepare_false_err _ _ _ hp]

/-- Replay loop, iteration whose state-manager commit fails. -/
lemma recoverRange_commit_err (l : KVLedger) (n c : Nat) (b : Block) (e : String)
    (hf : l.blockStore.retrieveBlockByNumber n = Except.ok b)
    (hp : l.txtmgmt.prepareErr b.num = none)
    (hc : l.txtmgmt.commitErr b.num = some e) :
    recoverRange l n (c + 1) =
      (some e,
        { l with pendingBlockToCommit := some b,
                 txtmgmt := { l.txtmgmt with staged := some ⟨b.num, (b.txs.filter (fun t => t.valid)).map (fun t => t.id)⟩ } },
        [Ev.fetch n, Ev.prepare n false, Ev.commitState n]) := by
  unfold recoverRange KVLedger.GetBlockByNumber
  rw [hf]
  simp [validateAndPrepare_false_ok _ _ hp, commit_of_staged, hc]

/-- Replay loop, iteration that fully succeeds: the block's effects are
applied, the savepoint advances to its number, and the loop continues at
the next height. -/
lemma recoverRange_step_ok (l : KVLedger) (n c : Nat) (b : Block)
    (hf : l.blockStore.retrieveBlockByNumber n = Except.ok b)
    (hp : l.txtmgmt.prepareErr b.num = none)
    (hc : l.txtmgmt.commitErr b.num = none) :
    recoverRange l n (c + 1) =
      ((recoverRange (replayStep l b) (n + 1) c).1,
       (recoverRange (replayStep l b) (n + 1) c).2.1,
       [Ev.fetch n, Ev.prepare n false, Ev.commitState n] ++
         (recoverRange (replayStep l b) (n + 1) c).2.2) := by
  conv_lhs => rw [recoverRange.eq_def]
  simp only [KVLedger.GetBlockByNumber, hf]
  simp [validateAndPrepare_false_ok _ _ hp, commit_of_staged, hc, replayStep]

/-- A block fetched by number carries that number. -/
lemma retrieve_num (s : BlockStore) (n : Nat) (b : Block)
    (h : s.retrieveBlockByNumber n = Except.ok b) : b.num = n := by
  unfold BlockStore.retrieveBlockByNumber at h
  cases he : s.fetchErr n with
  | some e => rw [he] at h; simp at h
  | none =>
    rw [he] at h
    cases hfind : s.blocks.find? (fun x => x.num == n) with
    | none => rw [hfind] at h; simp at h
    | some b2 =>
      rw [hfind] at h
      simp at h
      subst h
      have hb := List.find?_some hfind
      simpa using hb

/-- The replay loop produces the same error and the same call trace as
the specification-side description, provided the threaded ledger agrees
with the reference ledger on the block store and on the state manager's
failure behavior (the replay loop changes neither). -/
lemma recoverRange_eq_specReplay (count : Nat) :
    ∀ (l0 lt : KVLedger) (n : Nat),
      lt.blockStore = l0.blockStore →
      lt.txtmgmt.prepareErr = l0.txtmgmt.prepareErr →
      lt.txtmgmt.commitErr = l0.txtmgmt.commitErr →
      ((recoverRange lt n count).1, (recoverRange lt n count).2.2) =
        specReplay l0 n count := by
  induction count with
  | zero =>
    intro l0 lt n _ _ _
    rfl
  | succ c ih =>
    intro l0 lt n hbs hpe hce
    cases hf : l0.blockStore.retrieveBlockByNumber n with
    | error e =>
      have hft : lt.blockStore.retrieveBlockByNumber n = Except.error e := by rw [hbs, hf]
      rw [recoverRange_fetch_err lt n c e hft]
      simp [specReplay, hf]
    | ok b =>
      have hft : lt.blockStore.retrieveBlockByNumber n = Except.ok b := by rw [hbs, hf]
      cases hp : l0.txtmgmt.prepareErr b.num with
      | some e =>
        have hpt : lt.txtmgmt.prepareErr b.num = some e := by rw [hpe, hp]
        rw [recoverRange_prepare_err lt n c b e hft hpt]
        simp [specReplay, hf, validateAndPrepare_false_err _ _ _ hp]
      | none =>
        have hpt : lt.txtmgmt.prepareErr b.num = none := by rw [hpe, hp]
        cases hc : l0.txtmgmt.commitErr b.num with
        | some e =>
          have hct : lt.txtmgmt.commitErr b.num = some e := by rw [hce, hc]
          rw [recoverRange_commit_err lt n c b e hft hpt hct]
          simp [specReplay, hf, validateAndPrepare_false_ok _ _ hp, commit_of_staged, hc]
        | none =>
          have hct : lt.txtmgmt.commitErr b.num = none := by rw [hce, hc]
          have hspec : specReplay l0 n (c + 1) =
              ((specReplay l0 (n + 1) c).1,
               [Ev.fetch n, Ev.prepare n false, Ev.commitState n] ++
                 (specReplay l0 (n + 1) c).2) := by
            conv_lhs => rw [specReplay.eq_def]
            simp [hf, validateAndPrepare_false_ok _ _ hp, commit_of_staged, hc]
          have IH := ih l0 (replayStep lt b) (n + 1) hbs hpe hce
          have ih1 := congrArg Prod.fst IH
          have ih2 := congrArg Prod.snd IH
          rw [recoverRange_step_ok lt n c b hft hpt hct, hspec]
          exact Prod.ext ih1
            (congrArg (fun tr => [Ev.fetch n, Ev.prepare n false, Ev.commitState n] ++ tr)
              ih2)

/-- A fully successful replay run leaves the block store, the
savepoint-read behavior and the failure tables untouched, clears the
pending block, and — when at least one height was processed — leaves the
savepoint at the last height processed. -/
lemma recoverRange_ok_state (count : Nat) :
    ∀ (l : KVLedger) (n : Nat), (recoverRange l n count).1 = none →
      (recoverRange l n count).2.1.blockStore = l.blockStore ∧
      (recoverRange l n count).2.1.txtmgmt.savepointErr = l.txtmgmt.savepointErr ∧
      (recoverRange l n count).2.1.pendingBlockToCommit = none ∧
      (recoverRange l n count).2.1.txtmgmt.savepoint =
        (if count = 0 then l.txtmgmt.savepoint else n + count - 1) := by
  induction count with
  | zero =>
    intro l n _
    exact ⟨rfl, rfl, rfl, rfl⟩
  | succ c ih =>
    intro l n hnone
    cases hf : l.blockStore.retrieveBlockByNumber n with
    | error e =>
      rw [recoverRange_fetch_err l n c e hf] at hnone
      simp at hnone
    | ok b =>
      cases hp : l.txtmgmt.prepareErr b.num with
      | some e =>
        rw [recoverRange_prepare_err l n c b e hf hp] at hnone
        simp at hnone
      | none =>
        cases hc : l.txtmgmt.commitErr b.num with
        | some e =>
          rw [recoverRange_commit_err l n c b e hf hp hc] at hnone
          simp at hnone
        | none =>
          have hbn : b.num = n := retrieve_num l.blockStore n b hf
          rw [recoverRange_step_ok l n c b hf hp hc] at hnone ⊢
          replace hnone : (recoverRange (replayStep l b) (n + 1) c).1 = none := hnone
          obtain ⟨h1, h2, h3, h4⟩ := ih (replayStep l b) (n + 1) hnone
          have hfin : (recoverRange (replayStep l b) (n + 1) c).2.1.txtmgmt.savepoint =
              n + (c + 1) - 1 := by
            rw [h4]
            by_cases hc0 : c = 0
            · subst hc0
              simp [replayStep, hbn]
            · rw [if_neg hc0]
              omega
          exact ⟨h1, h2, h3, hfin⟩

/-- Appending with success extends the block list by exactly the block. -/
lemma addBlock_ok (s : BlockStore) (b : Block) (bs1 : BlockStore)
    (h : s.addBlock b = Except.ok bs1) : bs1.blocks = s.blocks ++ [b] := by
  unfold BlockStore.addBlock at h
  cases he : s.appendErr b.num <;> rw [he] at h <;> simp at h
  rw [← h]

/-- A successful state-manager commit of a staged update set applies its
writes, advances the savepoint to its block number and clears it. -/
lemma txmgr_commit_ok (m : TxMgr) (u : UpdateSet) (m1 : TxMgr)
    (hst : m.staged = some u) (h : m.commit = Except.ok m1) :
    m1.committed = m.committed ++ u.writes ∧ m1.savepoint = u.blockNum ∧
      m1.staged = none := by
  cases he : m.commitErr u.blockNum with
  | some e =>
    unfold TxMgr.commit at h
    rw [hst] at h
    simp [he] at h
  | none =>
    unfold TxMgr.commit at h
    rw [hst] at h
    simp [he] at h
    subst h
    exact ⟨rfl, rfl, rfl⟩

/-- Full characterization of a successful Commit call: the append and the
state-manager commit succeeded, and the result and trace are determined
by whether history is enabled. -/
lemma commit_ok_cases (l : KVLedger) (b : Block)
    (hp : l.pendingBlockToCommit = some b)
    (hok : (l.Commit).1 = Res.ok) :
    ∃ bs1 m1, l.blockStore.addBlock b = Except.ok bs1 ∧
      l.txtmgmt.commit = Except.ok m1 ∧
      ((l.historyEnabled = false ∧
        l.Commit = (Res.ok, ⟨bs1, m1, l.historymgmt, false, none⟩,
          [Ev.appendBlock b.num, Ev.commitState b.num])) ∨
       (∃ h1, l.historyEnabled = true ∧ l.historymgmt.commit b = Except.ok h1 ∧
        l.Commit = (Res.ok, ⟨bs1, m1, h1, true, none⟩,
          [Ev.appendBlock b.num, Ev.commitState b.num, Ev.commitHistory b.num]))) := by
  cases hadd : l.blockStore.addBlock b with
  | error e => exact absurd hok (by simp [KVLedger.Commit, hp, hadd])
  | ok bs1 =>
    cases hcm : l.txtmgmt.commit with
    | error e => exact absurd hok (by simp [KVLedger.Commit, hp, hadd, hcm])
    | ok m1 =>
      refine ⟨bs1, m1, rfl, rfl, ?_⟩
      cases hhe : l.historyEnabled with
      | false =>
        left
        exact ⟨rfl, by simp [KVLedger.Commit, hp, hadd, hcm, hhe]⟩
      | true =>
        cases hhc : l.historymgmt.commit b with
        | error e => exact absurd hok (by simp [KVLedger.Commit, hp, hadd, hcm, hhe, hhc])
        | ok h1 =>
          right
          exact ⟨h1, rfl, rfl, by simp [KVLedger.Commit, hp, hadd, hcm, hhe, hhc]⟩

/-- Recovery with an empty block store is a no-op. -/
lemma recoverStateDB_height_zero (l : KVLedger)
    (h : l.blockStore.blocks.length = 0) : recoverStateDB l = (none, l, []) := by
  simp [recoverStateDB, BlockStore.getBlockchainInfo, h]

/-- Recovery with the savepoint already at the block-store height is a
no-op. -/
lemma recoverStateDB_in_sync (l : KVLedger)
    (h1 : l.txtmgmt.savepointErr = none)
    (h2 : l.txtmgmt.savepoint = l.blockStore.blocks.length) :
    recoverStateDB l = (none, l, []) := by
  by_cases hz : l.blockStore.blocks.length = 0
  · exact recoverStateDB_height_zero l hz
  · simp [recoverStateDB, BlockStore.getBlockchainInfo, TxMgr.getBlockNumFromSavepoint,
      hz, h1, h2]

/-- Recovery with a failing savepoint read surfaces that error. -/
lemma recoverStateDB_savepoint_err (l : KVLedger) (e : String)
    (hz : l.blockStore.blocks.length ≠ 0)
    (he : l.txtmgmt.savepointErr = some e) :
    recoverStateDB l = (some e, l, []) := by
  simp [recoverStateDB, BlockStore.getBlockchainInfo, TxMgr.getBlockNumFromSavepoint,
    hz, he]

/-- Recovery with the savepoint ahead of a nonempty block store fails
with the inconsistent-state error, doing nothing. -/
lemma recoverStateDB_ahead_eq (l : KVLedger)
    (hz : l.blockStore.blocks.length ≠ 0)
    (hsperr : l.txtmgmt.savepointErr = none)
    (hgt : l.blockStore.blocks.length < l.txtmgmt.savepoint) :
    recoverStateDB l = (some aheadMsg, l, []) := by
  have h1 : ¬ l.txtmgmt.savepoint = l.blockStore.blocks.length := by omega
  simp [recoverStateDB, BlockStore.getBlockchainInfo, TxMgr.getBlockNumFromSavepoint,
    hz, hsperr, h1, hgt]

/-- Recovery with a readable savepoint strictly below a nonzero height
runs the replay loop over the missing heights. -/
lemma recoverStateDB_replay_branch (l : KVLedger)
    (hz : l.blockStore.blocks.length ≠ 0)
    (hsperr : l.txtmgmt.savepointErr = none)
    (hlt : l.txtmgmt.savepoint < l.blockStore.blocks.length) :
    recoverStateDB l = recoverRange l (l.txtmgmt.savepoint + 1)
      (l.blockStore.blocks.length - l.txtmgmt.savepoint) := by
  have hne : ¬ l.txtmgmt.savepoint = l.blockStore.blocks.length := by omega
  have hnlt : ¬ l.blockStore.blocks.length < l.txtmgmt.savepoint := by omega
  simp [recoverStateDB, BlockStore.getBlockchainInfo, TxMgr.getBlockNumFromSavepoint,
    hz, hsperr, hne, hnlt]

/-! ## Claim theorems -/

/-- C1: with a readable savepoint s strictly below the block-store
height h, recoverStateDB produces exactly the error and the call
sequence of the specification-side replay description: heights s+1
through h inclusive, in increasing order, each fetched by number,
validated-and-prepared with filterInvalid false, then committed to the
state transaction manager, stopping at the first failing step with that
error and no later height processed. -/
theorem recovery_replays_missing_heights (l : KVLedger) (s h : Nat)
    (hsperr : l.txtmgmt.savepointErr = none)
    (hs : l.txtmgmt.savepoint = s)
    (hh : l.blockStore.blocks.length = h)
    (hlt : s < h) :
    ((recoverStateDB l).1, (recoverStateDB l).2.2) = specReplay l (s + 1) (h - s) := by
  have hz : l.blockStore.blocks.length ≠ 0 := by omega
  have hlt2 : l.txtmgmt.savepoint < l.blockStore.blocks.length := by omega
  rw [recoverStateDB_replay_branch l hz hsperr hlt2, hs, hh]
  exact recoverRange_eq_specReplay (h - s) l l (s + 1) rfl rfl rfl

theorem recovery_replays_missing_heights_witness :
    lRecover.txtmgmt.savepointErr = none ∧
    lRecover.txtmgmt.savepoint = 0 ∧
    lRecover.blockStore.blocks.length = 2 ∧
    (0 : Nat) < 2 ∧
    ((recoverStateDB lRecover).1, (recoverStateDB lRecover).2.2) =
      specReplay lRecover 1 2 ∧
    (recoverStateDB lRecover).2.2 =
      [Ev.fetch 1, Ev.prepare 1 false, Ev.commitState 1,
       Ev.fetch 2, Ev.prepare 2 false, Ev.commitState 2] ∧
    (recoverStateDB lRecover).1 = none :=
  ⟨rfl, rfl, rfl, by decide,
   recovery_replays_missing_heights lRecover 0 2 rfl rfl rfl (by decide), rfl, rfl⟩

/-- C2 counterexample: block-store height 0 with state-manager savepoint
1 has the savepoint strictly greater than the height, yet construction
succeeds: recoverStateDB returns no error and NewKVLedger returns ok —
the height-0 check short-circuits before the savepoint is compared. -/
theorem construction_ahead_empty_cex :
    lEmptyAhead.blockStore.blocks.length < lEmptyAhead.txtmgmt.savepoint ∧
    (recoverStateDB lEmptyAhead).1 = none ∧
    (NewKVLedger lEmptyAhead.blockStore lEmptyAhead.txtmgmt lEmptyAhead.historymgmt
      false).1 = Res.ok :=
  ⟨by decide, rfl, rfl⟩

/-- C2 amended: when the block store is nonempty and the savepoint is
strictly greater than its height, recoverStateDB returns the
inconsistent-state error with the ledger untouched and no block fetched,
prepared or committed (empty trace), and NewKVLedger panics instead of
returning a ledger handle. -/
theorem construction_ahead_fails (l : KVLedger)
    (hne : l.blockStore.blocks.length ≠ 0)
    (hsp : l.txtmgmt.savepointErr = none)
    (hgt : l.blockStore.blocks.length < l.txtmgmt.savepoint) :
    recoverStateDB l = (some aheadMsg, l, []) ∧
    (NewKVLedger l.blockStore l.txtmgmt l.historymgmt l.historyEnabled).1 =
      Res.fatal ("Error during state DB recovery:" ++ aheadMsg) := by
  refine ⟨recoverStateDB_ahead_eq l hne hsp hgt, ?_⟩
  have h2 := recoverStateDB_ahead_eq
    ⟨l.blockStore, l.txtmgmt, l.historymgmt, l.historyEnabled, none⟩ hne hsp hgt
  simp [NewKVLedger, h2]

theorem construction_ahead_fails_witness :
    lAhead.blockStore.blocks.length ≠ 0 ∧
    lAhead.txtmgmt.savepointErr = none ∧
    lAhead.blockStore.blocks.length < lAhead.txtmgmt.savepoint ∧
    (recoverStateDB lAhead = (some aheadMsg, lAhead, []) ∧
      (NewKVLedger lAhead.blockStore lAhead.txtmgmt lAhead.historymgmt
        lAhead.historyEnabled).1 =
        Res.fatal ("Error during state DB recovery:" ++ aheadMsg)) :=
  ⟨by decide, rfl, by decide, construction_ahead_fails lAhead (by decide) rfl (by decide)⟩

/-- C3: a successful Commit of a pending block makes exactly the calls
append-to-block-store, then state-manager commit, then history-manager
commit if and only if history is enabled (in that order); the block
store gains exactly the pending block, the state manager's commit result
is installed, the history manager is untouched when disabled, and the
pending block is cleared. -/
theorem commit_order (l : KVLedger) (b : Block)
    (hp : l.pendingBlockToCommit = some b)
    (hok : (l.Commit).1 = Res.ok) :
    (l.Commit).2.2 =
      [Ev.appendBlock b.num, Ev.commitState b.num] ++
        (if l.historyEnabled then [Ev.commitHistory b.num] else []) ∧
    (l.Commit).2.1.blockStore.blocks = l.blockStore.blocks ++ [b] ∧
    (∃ m1, l.txtmgmt.commit = Except.ok m1 ∧ (l.Commit).2.1.txtmgmt = m1) ∧
    (l.historyEnabled = true →
      ∃ h1, l.historymgmt.commit b = Except.ok h1 ∧ (l.Commit).2.1.historymgmt = h1) ∧
    (l.historyEnabled = false → (l.Commit).2.1.historymgmt = l.historymgmt) ∧
    (l.Commit).2.1.pendingBlockToCommit = none := by
  obtain ⟨bs1, m1, hadd, hcm, hcase⟩ := commit_ok_cases l b hp hok
  have hbl := addBlock_ok l.blockStore b bs1 hadd
  rcases hcase with ⟨hhe, heq⟩ | ⟨h1, hhe, hhc, heq⟩ <;> rw [heq] <;> rw [hhe]
  · exact ⟨rfl, hbl, ⟨m1, hcm, rfl⟩, fun h => by simp at h, fun _ => rfl, rfl⟩
  · exact ⟨rfl, hbl, ⟨m1, hcm, rfl⟩, fun _ => ⟨h1, hhc, rfl⟩, fun h => by simp at h, rfl⟩

theorem commit_order_witness :
    lPrepared.pendingBlockToCommit = some bOne ∧
    (lPrepared.Commit).1 = Res.ok ∧
    ((lPrepared.Commit).2.2 =
      [Ev.appendBlock bOne.num, Ev.commitState bOne.num] ++
        (if lPrepared.historyEnabled then [Ev.commitHistory bOne.num] else []) ∧
     (lPrepared.Commit).2.1.blockStore.blocks = lPrepared.blockStore.blocks ++ [bOne] ∧
     (∃ m1, lPrepared.txtmgmt.commit = Except.ok m1 ∧
       (lPrepared.Commit).2.1.txtmgmt = m1) ∧
     (lPrepared.historyEnabled = true →
       ∃ h1, lPrepared.historymgmt.commit bOne = Except.ok h1 ∧
         (lPrepared.Commit).2.1.historymgmt = h1) ∧
     (lPrepared.historyEnabled = false →
       (lPrepared.Commit).2.1.historymgmt = lPrepared.historymgmt) ∧
     (lPrepared.Commit).2.1.pendingBlockToCommit = none) :=
  ⟨rfl, rfl, commit_order lPrepared bOne rfl rfl⟩

/-- C4: when a block containing invalid transactions is validated and
prepared (filterInvalid = true) and then committed, the block Commit
appends to the block store is the full original block with its
transactions annotated: it has the same transaction sequence as the
input block (nothing filtered out), every rejected transaction is still
among its transactions, and the committed state advances using only the
valid transactions' effects. -/
theorem commit_stores_annotated_block (l : KVLedger) (block vb : Block) (itxs : List Tx)
    (hprep : (l.RemoveInvalidTransactionsAndPrepare block).1 = Except.ok (vb, itxs))
    (hok : (((l.RemoveInvalidTransactionsAndPrepare block).2).Commit).1 = Res.ok) :
    vb.num = block.num ∧
    vb.txs.map (fun t => t.id) = block.txs.map (fun t => t.id) ∧
    (∀ t ∈ itxs, t.id ∈ vb.txs.map (fun t => t.id)) ∧
    ((l.RemoveInvalidTransactionsAndPrepare block).2).pendingBlockToCommit = some vb ∧
    (((l.RemoveInvalidTransactionsAndPrepare block).2).Commit).2.1.blockStore.blocks
      = l.blockStore.blocks ++ [vb] ∧
    (((l.RemoveInvalidTransactionsAndPrepare block).2).Commit).2.1.txtmgmt.committed
      = l.txtmgmt.committed ++ (vb.txs.filter (fun t => t.valid)).map (fun t => t.id) := by
  cases hpe : l.txtmgmt.prepareErr block.num with
  | some e =>
    exact absurd hprep (by
      simp [KVLedger.RemoveInvalidTransactionsAndPrepare, TxMgr.validateAndPrepare, hpe])
  | none =>
    have hpend : ((l.RemoveInvalidTransactionsAndPrepare block).2).pendingBlockToCommit
        = some vb := by
      simp only [KVLedger.RemoveInvalidTransactionsAndPrepare, TxMgr.validateAndPrepare,
        hpe, if_true] at hprep ⊢
      simp only [Except.ok.injEq, Prod.mk.injEq] at hprep
      simp [hprep.1]
    obtain ⟨bs1, m1, hadd, hcm, hcase⟩ :=
      commit_ok_cases ((l.RemoveInvalidTransactionsAndPrepare block).2) vb hpend hok
    have hvb : vb = ⟨block.num,
        block.txs.map (fun t => { t with valid := l.txtmgmt.policy t.id })⟩ := by
      simp only [KVLedger.RemoveInvalidTransactionsAndPrepare, TxMgr.validateAndPrepare,
        hpe, if_true, Except.ok.injEq, Prod.mk.injEq] at hprep
      exact hprep.1.symm
    have hitxs : itxs = (block.txs.map (fun t => { t with valid := l.txtmgmt.policy t.id })).filter
        (fun t => !t.valid) := by
      simp only [KVLedger.RemoveInvalidTransactionsAndPrepare, TxMgr.validateAndPrepare,
        hpe, if_true, Except.ok.injEq, Prod.mk.injEq] at hprep
      exact hprep.2.symm
    have hids : vb.txs.map (fun t => t.id) = block.txs.map (fun t => t.id) := by
      rw [hvb]
      simp [List.map_map, Function.comp]
    have hmem : ∀ t ∈ itxs, t.id ∈ vb.txs.map (fun t => t.id) := by
      intro t ht
      rw [hitxs] at ht
      rw [hvb]
      exact List.mem_map_of_mem _ (List.mem_filter.mp ht).1
    have hstaged : ((l.RemoveInvalidTransactionsAndPrepare block).2).txtmgmt.staged
        = some ⟨vb.num, (vb.txs.filter (fun t => t.valid)).map (fun t => t.id)⟩ := by
      simp only [KVLedger.RemoveInvalidTransactionsAndPrepare, TxMgr.validateAndPrepare,
        hpe, if_true]
      rw [hvb]
    have hsame : ((l.RemoveInvalidTransactionsAndPrepare block).2).txtmgmt.committed
        = l.txtmgmt.committed := by
      simp only [KVLedger.RemoveInvalidTransactionsAndPrepare, TxMgr.validateAndPrepare,
        hpe, if_true]
    have hbs : ((l.RemoveInvalidTransactionsAndPrepare block).2).blockStore
        = l.blockStore := by
      simp only [KVLedger.RemoveInvalidTransactionsAndPrepare, TxMgr.validateAndPrepare,
        hpe, if_true]
    have hbl := addBlock_ok _ vb bs1 hadd
    rw [hbs] at hbl
    obtain ⟨hcomm, _, _⟩ := txmgr_commit_ok _ _ m1 hstaged hcm
    rw [hsame] at hcomm
    have hnum : vb.num = block.num := by rw [hvb]
    rcases hcase with ⟨_, heq⟩ | ⟨h1, _, _, heq⟩ <;> rw [heq] <;>
      exact ⟨hnum, hids, hmem, hpend, hbl, hcomm⟩

theorem commit_stores_annotated_block_witness :
    ((lReject2.RemoveInvalidTransactionsAndPrepare bThree).1 =
      Except.ok (abThree, [⟨2, false⟩])) ∧
    ((lC4run.Commit).1 = Res.ok) ∧
    (abThree.num = bThree.num ∧
     abThree.txs.map (fun t => t.id) = bThree.txs.map (fun t => t.id) ∧
     (∀ t ∈ ([⟨2, false⟩] : List Tx), t.id ∈ abThree.txs.map (fun t => t.id)) ∧
     lC4run.pendingBlockToCommit = some abThree ∧
     (lC4run.Commit).2.1.blockStore.blocks = lReject2.blockStore.blocks ++ [abThree] ∧
     (lC4run.Commit).2.1.txtmgmt.committed =
       lReject2.txtmgmt.committed ++
         (abThree.txs.filter (fun t => t.valid)).map (fun t => t.id)) :=
  ⟨rfl, rfl, commit_stores_annotated_block lReject2 bThree abThree [⟨2, false⟩] rfl rfl⟩

/-- C5: Commit with no pending block panics with the contract-violation
message, returns the ledger unchanged and makes no call to the block
store, state manager or history manager (empty trace). -/
theorem commit_idle_fatal (l : KVLedger) (hp : l.pendingBlockToCommit = none) :
    l.Commit = (Res.fatal commitIdleMsg, l, []) := by
  simp [KVLedger.Commit, hp]

theorem commit_idle_fatal_witness :
    lIdle.pendingBlockToCommit = none ∧
    lIdle.Commit = (Res.fatal commitIdleMsg, lIdle, []) :=
  ⟨rfl, commit_idle_fatal lIdle rfl⟩

/-- C6: when the block-store append of the pending block fails, Commit
returns that error as a normal (non-panic) error, the ledger is
unchanged (in particular the pending block stays in place), and neither
the state manager nor the history manager is invoked (the trace holds
the append call only). -/
theorem commit_append_error (l : KVLedger) (b : Block) (e : String)
    (hp : l.pendingBlockToCommit = some b)
    (he : l.blockStore.addBlock b = Except.error e) :
    l.Commit = (Res.fail e, l, [Ev.appendBlock b.num]) := by
  simp [KVLedger.Commit, hp, he]

theorem commit_append_error_witness :
    lAppendFail.pendingBlockToCommit = some bOne ∧
    lAppendFail.blockStore.addBlock bOne = Except.error "disk full" ∧
    lAppendFail.Commit = (Res.fail "disk full", lAppendFail, [Ev.appendBlock 1]) :=
  ⟨rfl, rfl, commit_append_error lAppendFail bOne "disk full" rfl rfl⟩

/-- C7: Validate-and-Prepare followed by Rollback leaves the block store
(hence its height), the history manager, the committed state and the
savepoint exactly as before, discards the staged update set and clears
the pending block; and Rollback is idempotent, so calling it again while
already idle is a no-op. -/
theorem rollback_discards (l : KVLedger) (b : Block) :
    (((l.RemoveInvalidTransactionsAndPrepare b).2).Rollback).blockStore = l.blockStore ∧
    (((l.RemoveInvalidTransactionsAndPrepare b).2).Rollback).historymgmt = l.historymgmt ∧
    (((l.RemoveInvalidTransactionsAndPrepare b).2).Rollback).txtmgmt.committed
      = l.txtmgmt.committed ∧
    (((l.RemoveInvalidTransactionsAndPrepare b).2).Rollback).txtmgmt.savepoint
      = l.txtmgmt.savepoint ∧
    (((l.RemoveInvalidTransactionsAndPrepare b).2).Rollback).txtmgmt.staged = none ∧
    (((l.RemoveInvalidTransactionsAndPrepare b).2).Rollback).pendingBlockToCommit = none ∧
    ∀ l2 : KVLedger, l2.Rollback.Rollback = l2.Rollback := by
  refine ⟨?_, ?_, ?_, ?_, ?_, ?_, fun l2 => rfl⟩ <;>
  · cases heq : l.txtmgmt.prepareErr b.num <;>
      simp [KVLedger.RemoveInvalidTransactionsAndPrepare, TxMgr.validateAndPrepare,
        KVLedger.Rollback, TxMgr.rollback, heq]

/-- C8: recovery is idempotent: an empty block store or an
already-in-sync savepoint makes recoverStateDB a success-returning no-op
with no store call, and after any successful recovery a second run
returns success with the ledger unchanged and an empty call trace — the
savepoint and block-store height are untouched and no update set is
applied twice. -/
theorem recovery_idempotent :
    (∀ l : KVLedger, l.blockStore.blocks.length = 0 →
      recoverStateDB l = (none, l, [])) ∧
    (∀ l : KVLedger, l.txtmgmt.savepointErr = none →
      l.txtmgmt.savepoint = l.blockStore.blocks.length →
      recoverStateDB l = (none, l, [])) ∧
    (∀ l : KVLedger, (recoverStateDB l).1 = none →
      recoverStateDB ((recoverStateDB l).2.1) = (none, (recoverStateDB l).2.1, [])) := by
  refine ⟨recoverStateDB_height_zero, recoverStateDB_in_sync, ?_⟩
  intro l hnone
  by_cases hz : l.blockStore.blocks.length = 0
  · rw [recoverStateDB_height_zero l hz]
    exact recoverStateDB_height_zero l hz
  · cases hsperr : l.txtmgmt.savepointErr with
    | some e =>
      rw [recoverStateDB_savepoint_err l e hz hsperr] at hnone
      simp at hnone
    | none =>
      by_cases hse : l.txtmgmt.savepoint = l.blockStore.blocks.length
      · rw [recoverStateDB_in_sync l hsperr hse]
        exact recoverStateDB_in_sync l hsperr hse
      · by_cases hgt : l.blockStore.blocks.length < l.txtmgmt.savepoint
        · rw [recoverStateDB_ahead_eq l hz hsperr hgt] at hnone
          simp at hnone
        · have hlt : l.txtmgmt.savepoint < l.blockStore.blocks.length := by omega
          rw [recoverStateDB_replay_branch l hz hsperr hlt] at hnone ⊢
          obtain ⟨h1, h2, h3, h4⟩ := recoverRange_ok_state _ l _ hnone
          apply recoverStateDB_in_sync
          · rw [h2]
            exact hsperr
          · rw [h4, h1]
            have hcnt : ¬ (l.blockStore.blocks.length - l.txtmgmt.savepoint = 0) := by
              omega
            rw [if_neg hcnt]
            omega

theorem recovery_idempotent_witness :
    (lIdle.blockStore.blocks.length = 0 ∧ recoverStateDB lIdle = (none, lIdle, [])) ∧
    (lSync.txtmgmt.savepointErr = none ∧
      lSync.txtmgmt.savepoint = lSync.blockStore.blocks.length ∧
      recoverStateDB lSync = (none, lSync, [])) ∧
    ((recoverStateDB lRecover).1 = none ∧
      recoverStateDB ((recoverStateDB lRecover).2.1) =
        (none, (recoverStateDB lRecover).2.1, [])) :=
  ⟨⟨rfl, recovery_idempotent.1 lIdle rfl⟩,
   ⟨rfl, rfl, recovery_idempotent.2.1 lSync rfl rfl⟩,
   ⟨rfl, recovery_idempotent.2.2 lRecover rfl⟩⟩

/-- C9 counterexample: the block store's blockchain-info read returns an
error, yet recoverStateDB returns success and NewKVLedger constructs the
ledger — the error is bound to the blank identifier in the source and
discarded, so this collaborator error is swallowed silently. -/
theorem info_error_swallowed_cex :
    (lInfoErr.blockStore.getBlockchainInfo).2 = some "blockchain info read failed" ∧
    recoverStateDB lInfoErr = (none, lInfoErr, []) ∧
    (NewKVLedger lInfoErr.blockStore lInfoErr.txtmgmt lInfoErr.historymgmt false).1 =
      Res.ok :=
  ⟨rfl, rfl, rfl⟩

/-- C9 amended: the error returned by the block store's blockchain-info
read is discarded by recoverStateDB (recovery proceeds as if the read
had succeeded), while every other collaborator error the coordinator
binds is surfaced: a savepoint-read failure and a fetch,
validate-and-prepare or state-commit failure during replay abort
recovery with that error; during Commit an append failure is returned as
an error, and a state-manager or history-manager commit failure
panics. -/
theorem collaborator_errors_surfaced :
    (∀ (l : KVLedger) (e : String), l.blockStore.infoErr = some e →
      l.blockStore.blocks.length = 0 → (recoverStateDB l).1 = none) ∧
    (∀ (l : KVLedger) (e : String), l.blockStore.blocks.length ≠ 0 →
      l.txtmgmt.savepointErr = some e → (recoverStateDB l).1 = some e) ∧
    (∀ (l : KVLedger) (e : String), l.txtmgmt.savepointErr = none →
      l.txtmgmt.savepoint < l.blockStore.blocks.length →
      l.blockStore.retrieveBlockByNumber (l.txtmgmt.savepoint + 1) = Except.error e →
      (recoverStateDB l).1 = some e) ∧
    (∀ (l : KVLedger) (b : Block) (e : String), l.txtmgmt.savepointErr = none →
      l.txtmgmt.savepoint < l.blockStore.blocks.length →
      l.blockStore.retrieveBlockByNumber (l.txtmgmt.savepoint + 1) = Except.ok b →
      l.txtmgmt.prepareErr b.num = some e →
      (recoverStateDB l).1 = some e) ∧
    (∀ (l : KVLedger) (b : Block) (e : String), l.txtmgmt.savepointErr = none →
      l.txtmgmt.savepoint < l.blockStore.blocks.length →
      l.blockStore.retrieveBlockByNumber (l.txtmgmt.savepoint + 1) = Except.ok b →
      l.txtmgmt.prepareErr b.num = none → l.txtmgmt.commitErr b.num = some e →
      (recoverStateDB l).1 = some e) ∧
    (∀ (l : KVLedger) (b : Block) (e : String), l.pendingBlockToCommit = some b →
      l.blockStore.addBlock b = Except.error e → (l.Commit).1 = Res.fail e) ∧
    (∀ (l : KVLedger) (b : Block) (e : String), l.pendingBlockToCommit = some b →
      (∃ bs1, l.blockStore.addBlock b = Except.ok bs1) →
      l.txtmgmt.commit = Except.error e →
      (l.Commit).1 = Res.fatal ("Error during commit to txmgr:" ++ e)) ∧
    (∀ (l : KVLedger) (b : Block) (e : String), l.pendingBlockToCommit = some b →
      (∃ bs1, l.blockStore.addBlock b = Except.ok bs1) →
      (∃ m1, l.txtmgmt.commit = Except.ok m1) → l.historyEnabled = true →
      l.historymgmt.commit b = Except.error e →
      (l.Commit).1 = Res.fatal ("Error during commit to txthistory:" ++ e)) := by
  refine ⟨?_, ?_, ?_, ?_, ?_, ?_, ?_, ?_⟩
  · intro l e _ hz
    rw [recoverStateDB_height_zero l hz]
  · intro l e hz he
    rw [recoverStateDB_savepoint_err l e hz he]
  · intro l e hsperr hlt hf
    have hz : l.blockStore.blocks.length ≠ 0 := by omega
    rw [recoverStateDB_replay_branch l hz hsperr hlt]
    obtain ⟨c, hc⟩ : ∃ c, l.blockStore.blocks.length - l.txtmgmt.savepoint = c + 1 :=
      ⟨l.blockStore.blocks.length - l.txtmgmt.savepoint - 1, by omega⟩
    rw [hc, recoverRange_fetch_err _ _ _ _ hf]
  · intro l b e hsperr hlt hf hp
    have hz : l.blockStore.blocks.length ≠ 0 := by omega
    rw [recoverStateDB_replay_branch l hz hsperr hlt]
    obtain ⟨c, hc⟩ : ∃ c, l.blockStore.blocks.length - l.txtmgmt.savepoint = c + 1 :=
      ⟨l.blockStore.blocks.length - l.txtmgmt.savepoint - 1, by omega⟩
    rw [hc, recoverRange_prepare_err _ _ _ _ _ hf hp]
  · intro l b e hsperr hlt hf hp hcm
    have hz : l.blockStore.blocks.length ≠ 0 := by omega
    rw [recoverStateDB_replay_branch l hz hsperr hlt]
    obtain ⟨c, hc⟩ : ∃ c, l.blockStore.blocks.length - l.txtmgmt.savepoint = c + 1 :=
      ⟨l.blockStore.blocks.length - l.txtmgmt.savepoint - 1, by omega⟩
    rw [hc, recoverRange_commit_err _ _ _ _ _ hf hp hcm]
  · intro l b e hp he
    simp [KVLedger.Commit, hp, he]
  · intro l b e hp hadd hcm
    obtain ⟨bs1, hadd⟩ := hadd
    simp [KVLedger.Commit, hp, hadd, hcm]
  · intro l b e hp hadd hcm hhe hhc
    obtain ⟨bs1, hadd⟩ := hadd
    obtain ⟨m1, hcm⟩ := hcm
    simp [KVLedger.Commit, hp, hadd, hcm, hhe, hhc]

theorem collaborator_errors_surfaced_witness :
    (recoverStateDB lInfoErr).1 = none ∧
    (recoverStateDB lSpErr).1 = some "savepoint read failed" ∧
    (recoverStateDB lFetchErr).1 = some "fetch failed" ∧
    (recoverStateDB lPrepFail).1 = some "prepare failed" ∧
    (recoverStateDB lCommitFail).1 = some "state commit failed" ∧
    (lAppendFail.Commit).1 = Res.fail "disk full" ∧
    (lStateFail.Commit).1 =
      Res.fatal ("Error during commit to txmgr:" ++ "state commit failed") ∧
    (lHistFail.Commit).1 =
      Res.fatal ("Error during commit to txthistory:" ++ "history commit failed") :=
  ⟨collaborator_errors_surfaced.1 lInfoErr "blockchain info read failed" rfl rfl,
   collaborator_errors_surfaced.2.1 lSpErr "savepoint read failed" (by decide) rfl,
   collaborator_errors_surfaced.2.2.1 lFetchErr "fetch failed" rfl (by decide) rfl,
   collaborator_errors_surfaced.2.2.2.1 lPrepFail bOne "prepare failed" rfl (by decide)
     rfl rfl,
   collaborator_errors_surfaced.2.2.2.2.1 lCommitFail bOne "state commit failed" rfl
     (by decide) rfl rfl rfl,
   collaborator_errors_surfaced.2.2.2.2.2.1 lAppendFail bOne "disk full" rfl rfl,
   collaborator_errors_surfaced.2.2.2.2.2.2.1 lStateFail bOne "state commit failed" rfl
     ⟨_, rfl⟩ rfl,
   collaborator_errors_surfaced.2.2.2.2.2.2.2 lHistFail bOne "history commit failed" rfl
     ⟨_, rfl⟩ ⟨_, rfl⟩ rfl rfl⟩

/-- C10: for every prune policy and every ledger state, Prune returns
the not-implemented error (never nil) and leaves the block store, state
manager, history manager and pending block untouched. -/
theorem prune_not_implemented (l : KVLedger) (policy : PrunePolicy) :
    l.Prune policy = (Except.error "Not yet implemented", l) := rfl

end Fabric
